import Mathlib

/-!
# GainzAlgo market-signal engine: a shallow embedding

This file embeds the signal engine of `src/services/marketService.ts`
(the current revision of the file: `calculateSignals` at lines 842-1058
together with the indicator library it calls) and proves the claims of
the specification against it.

Modelling conventions:
* JavaScript `number` arithmetic is modelled by exact rational arithmetic
  (`ℚ`).  Division by zero in the source is modelled explicitly where a
  claim depends on it: the RSI value type `JD` carries the JavaScript
  outcomes `NaN` / `-Infinity` that the unguarded RSI formula can produce.
  The remaining indicator divisions (`calculateADX`'s DI quotients) use
  Lean's `x / 0 = 0` convention; they divide by zero only on candle
  windows whose true range is identically zero, and no claim below
  evaluates or depends on those values.
* Candle timestamps are integers (epoch milliseconds).
* Arrays are Lean lists; `new Array(n).fill(0)` followed by index
  assignments becomes an explicitly assembled list.
* JavaScript reads of an out-of-range index yield `undefined`.  Where
  the source then dereferences a field of the result the run throws a
  TypeError: this fallible path is modelled by the `…Run` functions
  returning `Option` (`none` = the exception), and `calculateEMARun` /
  `calculateSignalsRun` carry it.  The total functions (`calculateEMA`,
  `calculateSignals`) are the normal-return semantics: the value the
  source produces whenever it returns.  Out-of-range reads that
  JavaScript tolerates without a throw (plain arithmetic on `undefined`
  inside number arrays) never flow into an emitted signal on any path a
  claim exercises and are modelled by a zero default (`List.getD`).
-/

attribute [local semireducible] Rat.add Rat.mul Rat.sub Rat.inv Rat.ofScientific

set_option maxRecDepth 200000

/-- One OHLCV bar (`src/types.ts`, `Candle`).  `open` is a Lean keyword,
so the field is called `open'`. -/
structure Candle where
  time : ℤ
  open' : ℚ
  high : ℚ
  low : ℚ
  close : ℚ
  volume : ℚ
deriving DecidableEq

/-- The three strategies (`src/types.ts`, `StrategyType`). -/
inductive StrategyType where
  | TREND
  | REVERSAL
  | MOMENTUM
deriving DecidableEq

/-- Signal direction (the `type` field of a signal). -/
inductive SigType where
  | LONG
  | SHORT
deriving DecidableEq

/-- Signal lifecycle status; the engine only ever emits `ACTIVE`. -/
inductive SigStatus where
  | ACTIVE
  | HIT_TP
  | HIT_SL
  | PENDING
deriving DecidableEq

/-- The engine configuration.  `src/types.ts` (lines 19-31) declares
`sensitivity`, `riskReward`, `trendFilter`, `showTP`, `showSL`,
`atrPeriod`, `strategy`, `useRSIFilter` and `useVolumeFilter`; the
engine additionally reads `useMacdFilter`, `useEmaTrendFilter`,
`useAdxFilter` and `adxThreshold` (the spec's Configuration lists all of
them), so the embedding carries the union. -/
structure AlgoConfig where
  sensitivity : ℚ
  riskReward : ℚ
  trendFilter : Bool
  showTP : Bool
  showSL : Bool
  atrPeriod : ℕ
  strategy : StrategyType
  useRSIFilter : Bool
  useVolumeFilter : Bool
  useMacdFilter : Bool
  useEmaTrendFilter : Bool
  useAdxFilter : Bool
  adxThreshold : ℚ
deriving DecidableEq

/-- An emitted trading signal (`src/types.ts`, `Signal`). -/
structure Signal where
  id : String
  candleTime : ℤ
  type : SigType
  entryPrice : ℚ
  stopLoss : ℚ
  takeProfit : ℚ
  status : SigStatus
  reason : String
  confidence : ℚ
deriving DecidableEq

/-- Read `data[i]`; all reads the claims exercise are in range, and an
out-of-range read is modelled by an all-zero candle. -/
def candleAt (data : List Candle) (i : ℕ) : Candle :=
  data.getD i ⟨0, 0, 0, 0, 0, 0⟩

/-- A JavaScript number as the RSI computation can produce it: a finite
value, `-Infinity` (from `100 - 100/0`), or `NaN` (from `0/0` at the
unguarded seed).  `+Infinity` is unreachable for RSI values, so it has
no constructor. -/
inductive JD where
  | fin (q : ℚ)
  | ninf
  | nan
deriving DecidableEq

/-- JavaScript `x < c` for an RSI value `x`: `NaN` compares false,
`-Infinity` is below everything. -/
def JD.ltQ : JD → ℚ → Bool
  | JD.fin q, c => decide (q < c)
  | JD.ninf, _ => true
  | JD.nan, _ => false

/-- JavaScript `x > c` for an RSI value `x`. -/
def JD.gtQ : JD → ℚ → Bool
  | JD.fin q, c => decide (c < q)
  | JD.ninf, _ => false
  | JD.nan, _ => false

/-! ## Indicator library (`marketService.ts` lines 437-837) -/

/-- The EMA recurrence `ema[i] = close[i]*k + ema[i-1]*(1-k)`. -/
def emaLoop (k : ℚ) (prev : ℚ) : List ℚ → List ℚ
  | [] => []
  | c :: cs =>
    let v := c * k + prev * (1 - k)
    v :: emaLoop k v cs

/-- `calculateEMA` (lines 437-450), normal-return semantics: zeros
before the seed, the simple average of the first `period` closes at
index `period - 1`, then the recurrence.  When `period > data.length`
the source does NOT return: its seed loop (line 443) evaluates
`data[i].close` at `i = data.length`, where `data[i]` is `undefined`,
and throws a TypeError — that path is `calculateEMARun`, and this total
function is only the value produced when the call returns. -/
def calculateEMA (data : List Candle) (period : ℕ) : List ℚ :=
  let closes := data.map (fun c => c.close)
  let k : ℚ := 2 / ((period : ℚ) + 1)
  let seed : ℚ := (closes.take period).sum / (period : ℚ)
  List.replicate (period - 1) 0 ++ seed :: emaLoop k seed (closes.drop period)

/-- `calculateEMA` under full JavaScript semantics.  The seed loop
`for (let i = 0; i < period; i++) sum += data[i].close` (line 443) reads
every index below `period`, so whenever `period > data.length` the first
out-of-range read dereferences `undefined` and the call throws
(`none`); otherwise every read is in range and the call returns the
normal value. -/
def calculateEMARun (data : List Candle) (period : ℕ) : Option (List ℚ) :=
  if data.length < period then none else some (calculateEMA data period)

/-- Newton iteration for the integer square root, with explicit fuel so
that it reduces structurally (Batteries' `Nat.sqrt` is well-founded and
does not evaluate in the kernel); the iteration stops as soon as the
guess stops decreasing. -/
def isqrtFuel : ℕ → ℕ → ℕ → ℕ
  | 0, _, g => g
  | f + 1, n, g =>
    let g' := (g + n / g) / 2
    if g' < g then isqrtFuel f n g' else g

/-- Floor integer square root (`⌊√n⌋`). -/
def isqrt (n : ℕ) : ℕ := if n ≤ 1 then n else isqrtFuel n n (n / 2 + 1)

/-- Exact square root of a perfect-square rational, else `0`.
`Math.sqrt` appears in the engine only inside `calculateStdDev`; every
input at which a claim evaluates it is a perfect rational square, where
the float result and this exact result agree. -/
def ratSqrt (q : ℚ) : ℚ :=
  if q.num < 0 then 0
  else
    let n := isqrt q.num.natAbs
    let d := isqrt q.den
    if n * n = q.num.natAbs ∧ d * d = q.den then (n : ℚ) / (d : ℚ) else 0

/-- `calculateStdDev` (lines 453-461): population standard deviation of
the `period` closes ending at `index`, centred at `average`. -/
def calculateStdDev (data : List Candle) (period : ℕ) (index : ℕ) (average : ℚ) : ℚ :=
  if index + 1 < period then 0
  else
    let sumDiffSq := ((List.range period).map (fun i =>
      let d := (candleAt data (index - i)).close - average
      d * d)).sum
    ratSqrt (sumDiffSq / (period : ℚ))

/-- One RSI value of the Wilder loop (line 489-493): guarded against a
zero average loss; `1 + rs = 0` would give `100 - 100/0 = -Infinity` in
JavaScript. -/
def rsiStepVal (ag al : ℚ) : JD :=
  if al = 0 then JD.fin 100
  else if 1 + ag / al = 0 then JD.ninf
  else JD.fin (100 - 100 / (1 + ag / al))

/-- The unguarded RSI seed value (line 479),
`100 - (100 / (1 + avgGain/avgLoss))` under JavaScript float semantics:
with `avgLoss = 0` the inner quotient is `±Infinity` (giving `100`)
unless `avgGain = 0` too, which gives `NaN`. -/
def rsiSeedVal (ag al : ℚ) : JD :=
  if al = 0 then (if ag = 0 then JD.nan else JD.fin 100)
  else if 1 + ag / al = 0 then JD.ninf
  else JD.fin (100 - 100 / (1 + ag / al))

/-- The Wilder smoothing loop of `calculateRSIArray` (lines 481-494). -/
def rsiLoop (period : ℕ) (avgGain avgLoss prevClose : ℚ) : List ℚ → List JD
  | [] => []
  | c :: cs =>
    let change := c - prevClose
    let gain := if change > 0 then change else 0
    let loss := if change < 0 then -change else 0
    let ag := (avgGain * ((period : ℚ) - 1) + gain) / (period : ℚ)
    let al := (avgLoss * ((period : ℚ) - 1) + loss) / (period : ℚ)
    rsiStepVal ag al :: rsiLoop period ag al c cs

/-- `calculateRSIArray` (lines 464-496).  Note the seed: the initial
loop adds positive changes to `gains` and SUBTRACTS `Math.abs(change)`
from `losses` in the else-branch, so the seed `avgLoss` is `≤ 0` (the
magnitude negated), exactly as in the source. -/
def calculateRSIArray (data : List Candle) (period : ℕ) : List JD :=
  let closes := data.map (fun c => c.close)
  let deltas := (closes.zip closes.tail).map (fun p => p.2 - p.1)
  let firstDeltas := deltas.take period
  let gains := (firstDeltas.map (fun d => if d > 0 then d else 0)).sum
  let losses := (firstDeltas.map (fun d => if d > 0 then 0 else -|d|)).sum
  let avgGain := gains / (period : ℚ)
  let avgLoss := losses / (period : ℚ)
  List.replicate period (JD.fin 0) ++
    rsiSeedVal avgGain avgLoss ::
      rsiLoop period avgGain avgLoss (closes.getD period 0) (closes.drop (period + 1))

/-- True ranges (`calculateATR` lines 500-508 and `calculateADX` lines
530-534 compute the same list): `tr[0] = 0`,
`tr[i] = max(high-low, |high-prevClose|, |low-prevClose|)`. -/
def trList (data : List Candle) : List ℚ :=
  0 :: (data.zip data.tail).map (fun p =>
    max (p.2.high - p.2.low) (max |p.2.high - p.1.close| |p.2.low - p.1.close|))

/-- Wilder average update `a' = (a*(period-1) + x) / period`, iterated. -/
def wilderLoop (period : ℕ) (prev : ℚ) : List ℚ → List ℚ
  | [] => []
  | x :: xs =>
    let v := (prev * ((period : ℚ) - 1) + x) / (period : ℚ)
    v :: wilderLoop period v xs

/-- `calculateATR` (lines 499-519): seed at `period - 1` is the simple
mean of the first `period` true ranges (including `tr[0] = 0`), then
Wilder smoothing. -/
def calculateATR (data : List Candle) (period : ℕ) : List ℚ :=
  let tr := trList data
  let seed := (tr.take period).sum / (period : ℚ)
  List.replicate (period - 1) 0 ++ seed :: wilderLoop period seed (tr.drop period)

/-- The running smoothed sum `s' = s - s/period + x` of `calculateADX`
(lines 559-563). -/
def smoothLoop (period : ℕ) (prev : ℚ) : List ℚ → List ℚ
  | [] => []
  | x :: xs =>
    let v := prev - prev / (period : ℚ) + x
    v :: smoothLoop period v xs

/-- `calculateADX` (lines 522-588).  The DI quotients divide by
`smoothTR`, which is zero only on an identically-flat window; JavaScript
produces `NaN` there, modelled here by `0/0 = 0` (no claim reads ADX on
such data). -/
def calculateADX (data : List Candle) (period : ℕ) : List ℚ :=
  if data.length < period * 2 then List.replicate data.length 0
  else
    let tr := trList data
    let plusDM := 0 :: (data.zip data.tail).map (fun p =>
      let up := p.2.high - p.1.high
      let down := p.1.low - p.2.low
      if up > down ∧ up > 0 then up else 0)
    let minusDM := 0 :: (data.zip data.tail).map (fun p =>
      let up := p.2.high - p.1.high
      let down := p.1.low - p.2.low
      if down > up ∧ down > 0 then down else 0)
    let smoothOf := fun (xs : List ℚ) =>
      let s0 := ((xs.drop 1).take period).sum
      List.replicate period 0 ++ s0 :: smoothLoop period s0 (xs.drop (period + 1))
    let smoothTR := smoothOf tr
    let smoothPlusDM := smoothOf plusDM
    let smoothMinusDM := smoothOf minusDM
    let dx := (List.range data.length).map (fun i =>
      if i < period then (0 : ℚ)
      else
        let plusDI : ℚ := smoothPlusDM.getD i 0 / smoothTR.getD i 0 * 100
        let minusDI : ℚ := smoothMinusDM.getD i 0 / smoothTR.getD i 0 * 100
        if plusDI + minusDI = 0 then 0
        else |plusDI - minusDI| / (plusDI + minusDI) * 100)
    let seed := ((dx.drop period).take period).sum / (period : ℚ)
    List.replicate (period * 2 - 1) 0 ++ seed :: wilderLoop period seed (dx.drop (period * 2))

/-- `calculateWMA` (lines 720-732): linearly weighted average over the
last `period` values, zeros before index `period - 1`. -/
def calculateWMA (vals : List ℚ) (period : ℕ) : List ℚ :=
  let weights : ℚ := (period : ℚ) * ((period : ℚ) + 1) / 2
  (List.range vals.length).map (fun i =>
    if i + 1 < period then 0
    else ((List.range period).map (fun j =>
      vals.getD (i - (period - 1) + j) 0 * ((j : ℚ) + 1))).sum / weights)

/-- `calculateHMA` (lines 735-754): `WMA(⌊√period⌋)` of
`2·WMA(⌊period/2⌋) - WMA(period)` over closes. -/
def calculateHMA (data : List Candle) (period : ℕ) : List ℚ :=
  let closes := data.map (fun c => c.close)
  let wmaHalf := (calculateWMA closes (period / 2)).map (fun v => v * 2)
  let wmaFull := calculateWMA closes period
  let diff := (List.range data.length).map (fun i => wmaHalf.getD i 0 - wmaFull.getD i 0)
  calculateWMA diff (isqrt period)

/-- The SuperTrend main loop (lines 768-803), carrying the previous
close, bands and direction; emits `(superTrend, direction)` per index. -/
def stLoop (factor : ℚ) :
    List (Candle × ℚ) → ℚ → ℚ → ℚ → ℤ → List (ℚ × ℤ)
  | [], _, _, _, _ => []
  | (c, a) :: rest, prevClose, prevUpper, prevLower, prevDir =>
    let hl2 := (c.high + c.low) / 2
    let currUpper := hl2 + factor * a
    let currLower := hl2 - factor * a
    let upper := if currUpper < prevUpper ∨ prevClose > prevUpper then currUpper else prevUpper
    let lower := if currLower > prevLower ∨ prevClose < prevLower then currLower else prevLower
    let dir : ℤ :=
      if prevDir = -1 ∧ c.close > prevUpper then 1
      else if prevDir = 1 ∧ c.close < prevLower then -1
      else prevDir
    ((if dir = 1 then lower else upper), dir) :: stLoop factor rest c.close upper lower dir

/-- `calculateSuperTrend` (lines 757-806): indices below `period` hold
the close (superTrend) and direction `1`; the first loop step reads the
zero-initialised bands and direction `1`, as in the source. -/
def calculateSuperTrend (data : List Candle) (atr : List ℚ) (factor : ℚ) (period : ℕ) :
    List ℚ × List ℤ :=
  let pairs := (data.drop period).zip (atr.drop period)
  let out := stLoop factor pairs (candleAt data (period - 1)).close 0 0 1
  ((data.take period).map (fun c => c.close) ++ out.map Prod.fst,
   List.replicate (min period data.length) 1 ++ out.map Prod.snd)

/-- The three series `calculateMACD` returns. -/
structure MACDData where
  macdLine : List ℚ
  signalLine : List ℚ
  histogram : List ℚ

/-- `calculateMACD` (lines 809-837): MACD line = EMA(fast) − EMA(slow);
signal line = EMA(signalPeriod) of the MACD line seeded by its simple
average; histogram = MACD − signal. -/
def calculateMACD (data : List Candle) (fastPeriod slowPeriod signalPeriod : ℕ) : MACDData :=
  let fastEMA := calculateEMA data fastPeriod
  let slowEMA := calculateEMA data slowPeriod
  let macdLine := (List.range data.length).map (fun i => fastEMA.getD i 0 - slowEMA.getD i 0)
  let k : ℚ := 2 / ((signalPeriod : ℚ) + 1)
  let seed := (macdLine.take signalPeriod).sum / (signalPeriod : ℚ)
  let signalLine :=
    List.replicate (signalPeriod - 1) 0 ++ seed :: emaLoop k seed (macdLine.drop signalPeriod)
  let histogram := (List.range data.length).map (fun i => macdLine.getD i 0 - signalLine.getD i 0)
  ⟨macdLine, signalLine, histogram⟩

/-! ## Sensitivity-derived parameters (`calculateSignals` lines 847-882) -/

/-- Line 848: `Math.max(1, Math.min(100, config.sensitivity))`. -/
def clampSens (s : ℚ) : ℚ := max 1 (min 100 s)

/-- JavaScript `Math.round` on the values the engine rounds (all
positive): `⌊q + 1/2⌋`. -/
def jsRound (q : ℚ) : ℤ := ⌊q + 1 / 2⌋

/-- Lines 852-853: `max(2, round(20 - sensitivity*0.18))`, quadrupled
when the engine is invoked for the `'1s'` timeframe. -/
def cooldownCandles (sensitivity : ℚ) (timeframeId : Option String) : ℤ :=
  let c := max 2 (jsRound (20 - sensitivity * 0.18))
  if timeframeId = some "1s" then c * 4 else c

/-- Line 857: `max(5, round(30 - sensitivity*0.25))`. -/
def momentumLookback (sensitivity : ℚ) : ℕ :=
  (max 5 (jsRound (30 - sensitivity * 0.25))).toNat

/-- Line 862: `20 + sensitivity*0.25`. -/
def rsiLowerOf (sensitivity : ℚ) : ℚ := 20 + sensitivity * 0.25

/-- Line 863: `80 - sensitivity*0.25`. -/
def rsiUpperOf (sensitivity : ℚ) : ℚ := 80 - sensitivity * 0.25

/-- Line 880: `4.0 - sensitivity*0.025`. -/
def stFactorOf (sensitivity : ℚ) : ℚ := 4.0 - sensitivity * 0.025

/-- Line 882: `max(7, round(14 - sensitivity*0.07))`. -/
def stPeriodOf (sensitivity : ℚ) : ℕ :=
  (max 7 (jsRound (14 - sensitivity * 0.07))).toNat

/-! ## Strategy evaluation (lines 900-957) -/

/-- Strategy 1, Smart Trend (lines 902-924): SuperTrend flip first,
then HMA crossover in the SuperTrend direction. -/
def trendSignal (data : List Candle) (hma9 : List ℚ) (stDir : List ℤ) (i : ℕ) :
    Option (SigType × String) :=
  let current := candleAt data i
  let prev := candleAt data (i - 1)
  let sd := stDir.getD i 1
  let hma := hma9.getD i 0
  let prevHma := hma9.getD (i - 1) 0
  if stDir.getD (i - 1) 1 = -1 ∧ sd = 1 then some (SigType.LONG, "SuperTrend Buy Flip")
  else if stDir.getD (i - 1) 1 = 1 ∧ sd = -1 then some (SigType.SHORT, "SuperTrend Sell Flip")
  else if prev.close < prevHma ∧ current.close > hma ∧ sd = 1 then
    some (SigType.LONG, "HMA Trend Entry")
  else if prev.close > prevHma ∧ current.close < hma ∧ sd = -1 then
    some (SigType.SHORT, "HMA Trend Entry")
  else none

/-- Strategy 2, Reversal (lines 927-940): Bollinger-band rejection with
the sensitivity-derived RSI thresholds. -/
def reversalSignal (data : List Candle) (ema21 : List ℚ) (rsiArr : List JD)
    (rsiLower rsiUpper : ℚ) (i : ℕ) : Option (SigType × String) :=
  let current := candleAt data i
  let prev := candleAt data (i - 1)
  let stdDev := calculateStdDev data 20 i (ema21.getD i 0)
  let upperBB := ema21.getD i 0 + stdDev * 2
  let lowerBB := ema21.getD i 0 - stdDev * 2
  let rsi := rsiArr.getD i (JD.fin 0)
  if prev.low < lowerBB ∧ current.close > lowerBB ∧ rsi.ltQ rsiLower = true ∧
      current.close > current.open' then
    some (SigType.LONG, "BB Rejection (RSI < " ++ toString (jsRound rsiLower) ++ ")")
  else if prev.high > upperBB ∧ current.close < upperBB ∧ rsi.gtQ rsiUpper = true ∧
      current.close < current.open' then
    some (SigType.SHORT, "BB Rejection (RSI > " ++ toString (jsRound rsiUpper) ++ ")")
  else none

/-- Strategy 3, Momentum (lines 943-957): Donchian breakout over the
previous `mLookback` candles.  The source seeds `highestHigh` at `0`
(kept) and `lowestLow` at `Infinity`; since the window always contains
the `j = 1` element (`mLookback ≥ 5`), seeding the minimum with that
element is the same value. -/
def momentumSignal (data : List Candle) (mLookback : ℕ) (i : ℕ) :
    Option (SigType × String) :=
  let current := candleAt data i
  let highs := (List.range' 1 mLookback).map (fun j => (candleAt data (i - j)).high)
  let lows := (List.range' 1 mLookback).map (fun j => (candleAt data (i - j)).low)
  let highestHigh := highs.foldl max 0
  let lowestLow := lows.foldl min (candleAt data (i - 1)).low
  if current.close > highestHigh then
    some (SigType.LONG, toString mLookback ++ "-Period Breakout")
  else if current.close < lowestLow then
    some (SigType.SHORT, toString mLookback ++ "-Period Breakdown")
  else none

/-! ## The emission loop (lines 890-1055) -/

/-- Everything the per-index loop body of `calculateSignals` reads:
the candles, the selected strategy, the sensitivity-derived values, the
filter flags and the precomputed indicator series. -/
structure EngineCtx where
  data : List Candle
  strategy : StrategyType
  mLookback : ℕ
  rsiLower : ℚ
  rsiUpper : ℚ
  minTime : ℤ
  riskReward : ℚ
  useMacdFilter : Bool
  useEmaTrendFilter : Bool
  useAdxFilter : Bool
  adxThreshold : ℚ
  ema9 : List ℚ
  ema21 : List ℚ
  ema50 : List ℚ
  ema200 : List ℚ
  rsiArr : List JD
  atrArr : List ℚ
  adxArr : List ℚ
  macdHistogram : List ℚ
  hma9 : List ℚ
  stDir : List ℤ

/-- The strategy dispatch of the loop body. -/
def strategyCandidate (ctx : EngineCtx) (i : ℕ) : Option (SigType × String) :=
  match ctx.strategy with
  | StrategyType.TREND => trendSignal ctx.data ctx.hma9 ctx.stDir i
  | StrategyType.REVERSAL =>
      reversalSignal ctx.data ctx.ema21 ctx.rsiArr ctx.rsiLower ctx.rsiUpper i
  | StrategyType.MOMENTUM => momentumSignal ctx.data ctx.mLookback i

/-- MACD filter veto (lines 963-976): LONG vetoed on a negative
histogram, SHORT on a positive one. -/
def macdVeto (ctx : EngineCtx) (i : ℕ) (ty : SigType) : Bool :=
  ctx.useMacdFilter &&
    (match ty with
     | SigType.LONG => decide (ctx.macdHistogram.getD i 0 < 0)
     | SigType.SHORT => decide (0 < ctx.macdHistogram.getD i 0))

/-- EMA-200 trend filter veto (lines 979-990). -/
def emaVeto (ctx : EngineCtx) (i : ℕ) (ty : SigType) : Bool :=
  ctx.useEmaTrendFilter &&
    (match ty with
     | SigType.LONG => !decide ((candleAt ctx.data i).close > ctx.ema200.getD i 0)
     | SigType.SHORT => decide ((candleAt ctx.data i).close > ctx.ema200.getD i 0))

/-- ADX filter veto (lines 993-999). -/
def adxVeto (ctx : EngineCtx) (i : ℕ) : Bool :=
  ctx.useAdxFilter && decide (ctx.adxArr.getD i 0 < ctx.adxThreshold)

/-- `adx.toFixed(1)` for the reason string (decorative). -/
def toFixed1 (q : ℚ) : String :=
  let n := jsRound (q * 10)
  toString (n / 10) ++ "." ++ toString ((n % 10).natAbs)

/-- The reason suffixes the passing filters append (lines 975, 989,
998); a filter that is enabled and reached the append has passed. -/
def reasonSuffix (ctx : EngineCtx) (i : ℕ) : String :=
  (if ctx.useMacdFilter then " (MACD)" else "") ++
  (if ctx.useEmaTrendFilter then " (Trend)" else "") ++
  (if ctx.useAdxFilter then " (ADX " ++ toFixed1 (ctx.adxArr.getD i 0) ++ ")" else "")

/-- Confidence scoring (lines 1001-1032): base 60, the RSI, volume,
trend-alignment and ADX adjustments, clamped to `[30, 98]`. -/
def confidenceAt (data : List Candle) (ema21 ema50 : List ℚ) (rsiArr : List JD)
    (adxArr : List ℚ) (i : ℕ) (ty : SigType) : ℚ :=
  let current := candleAt data i
  let rsi := rsiArr.getD i (JD.fin 0)
  let vol := current.volume
  let avgVol := (((List.range' 1 10).map (fun k => (candleAt data (i - k)).volume)).sum) / 10
  let rsiAdj : ℚ :=
    match ty with
    | SigType.LONG => if rsi.ltQ 35 = true then 15 else if rsi.gtQ 60 = true then -10 else 0
    | SigType.SHORT => if rsi.gtQ 65 = true then 15 else if rsi.ltQ 40 = true then -10 else 0
  let volAdj : ℚ := if vol > avgVol * 1.5 then 15 else if vol > avgVol then 5 else 0
  let isTrendLong := current.close > ema50.getD i 0 ∧ ema21.getD i 0 > ema50.getD i 0
  let isTrendShort := current.close < ema50.getD i 0 ∧ ema21.getD i 0 < ema50.getD i 0
  let trendAdj : ℚ :=
    if (ty = SigType.LONG ∧ isTrendLong) ∨ (ty = SigType.SHORT ∧ isTrendShort) then 10 else 0
  let adxAdj : ℚ := if adxArr.getD i 0 > 30 then 10 else 0
  max 30 (min 98 (60 + rsiAdj + volAdj + trendAdj + adxAdj))

/-- The signal pushed at lines 1039-1052. -/
def mkSignal (current : Candle) (ty : SigType) (reason : String)
    (conf atr riskReward : ℚ) : Signal :=
  let volatilityBuffer := atr * 2.0
  let rewardTarget := volatilityBuffer * riskReward
  { id := "sig-" ++ toString current.time
    candleTime := current.time
    type := ty
    entryPrice := current.close
    stopLoss :=
      if ty = SigType.LONG then current.close - volatilityBuffer
      else current.close + volatilityBuffer
    takeProfit :=
      if ty = SigType.LONG then current.close + rewardTarget
      else current.close - rewardTarget
    status := SigStatus.ACTIVE
    reason := reason
    confidence := conf }

/-- The cooldown gate (lines 1034-1038): pass when there is no prior
signal (`timeSinceLast = Infinity`) or the elapsed time reaches
`minTime`. -/
def cooldownOk (signals : List Signal) (t : ℤ) (minTime : ℤ) : Bool :=
  match signals.getLast? with
  | none => true
  | some last => decide (minTime ≤ t - last.candleTime)

/-- One iteration of the emission loop (lines 890-1054): strategy
candidate, the three implemented confirmation filters, confidence, then
the cooldown-gated push. -/
def stepFn (ctx : EngineCtx) (signals : List Signal) (i : ℕ) : List Signal :=
  match strategyCandidate ctx i with
  | none => signals
  | some (ty, reason0) =>
    if macdVeto ctx i ty then signals
    else if emaVeto ctx i ty then signals
    else if adxVeto ctx i then signals
    else if cooldownOk signals (candleAt ctx.data i).time ctx.minTime then
      signals ++ [mkSignal (candleAt ctx.data i) ty (reason0 ++ reasonSuffix ctx i)
        (confidenceAt ctx.data ctx.ema21 ctx.ema50 ctx.rsiArr ctx.adxArr i ty)
        (ctx.atrArr.getD i 0) ctx.riskReward]
    else signals

/-- Build the loop context exactly as `calculateSignals` does before its
loop: clamp sensitivity, derive the tuning parameters, infer the candle
duration from the first two candles, and precompute every indicator
series (`ema9` is computed but never read, as in the source). -/
def mkCtx (data : List Candle) (strategy : StrategyType) (sensitivity riskReward : ℚ)
    (useMacdFilter useEmaTrendFilter useAdxFilter : Bool) (adxThreshold : ℚ)
    (timeframeId : Option String) : EngineCtx :=
  let s := clampSens sensitivity
  let candleDuration : ℤ :=
    if data.length > 1 then (candleAt data 1).time - (candleAt data 0).time else 60000
  let atrArr := calculateATR data 14
  { data := data
    strategy := strategy
    mLookback := momentumLookback s
    rsiLower := rsiLowerOf s
    rsiUpper := rsiUpperOf s
    minTime := cooldownCandles s timeframeId * candleDuration
    riskReward := riskReward
    useMacdFilter := useMacdFilter
    useEmaTrendFilter := useEmaTrendFilter
    useAdxFilter := useAdxFilter
    adxThreshold := adxThreshold
    ema9 := calculateEMA data 9
    ema21 := calculateEMA data 21
    ema50 := calculateEMA data 50
    ema200 := calculateEMA data 200
    rsiArr := calculateRSIArray data 14
    atrArr := atrArr
    adxArr := calculateADX data 14
    macdHistogram := (calculateMACD data 12 26 9).histogram
    hma9 := calculateHMA data 9
    stDir := (calculateSuperTrend data atrArr (stFactorOf s) (stPeriodOf s)).snd }

/-- `calculateSignals` (lines 842-1058), normal-return semantics: the
short-input guard, the context, and the loop from `startIndex = 200`.
The configuration fields `useRSIFilter` and `useVolumeFilter` are never
read by the source function, so they do not appear here.  This is the
value of a call that returns; the exception path of the unconditional
indicator precomputation is `calculateSignalsRun`. -/
def calculateSignals (data : List Candle) (config : AlgoConfig)
    (timeframeId : Option String) : List Signal :=
  if data.length < 50 then []
  else
    (List.range' 200 (data.length - 200)).foldl
      (stepFn (mkCtx data config.strategy config.sensitivity config.riskReward
        config.useMacdFilter config.useEmaTrendFilter config.useAdxFilter
        config.adxThreshold timeframeId)) []

/-- `calculateSignals` under full JavaScript semantics, with exception
propagation (`none` = the call throws).  Past the `length < 50` guard
the source unconditionally precomputes EMA(9), EMA(21), EMA(50) and
EMA(200) (lines 868-871) in that order; the EMA call throws exactly
when its period exceeds `data.length` (see `calculateEMARun`), so for
50-199 candles the EMA(200) call raises a TypeError that propagates out
of `calculateSignals`.  No other callee dereferences an out-of-range
element once `data.length ≥ 50`: RSI/ATR/ADX/MACD/SuperTrend read
candle fields only below index 50 or inside the input, HMA's WMAs read
plain number arrays (where an out-of-range read is `undefined`
arithmetic, not a throw), and the emission loop touches indices
`200 ≤ i < data.length` only. -/
def calculateSignalsRun (data : List Candle) (config : AlgoConfig)
    (timeframeId : Option String) : Option (List Signal) :=
  if data.length < 50 then some []
  else
    match calculateEMARun data 9, calculateEMARun data 21,
        calculateEMARun data 50, calculateEMARun data 200 with
    | some _, some _, some _, some _ => some (calculateSignals data config timeframeId)
    | _, _, _, _ => none

/-! ## The spec's parameter derivations, spelled out -/

/-- The engine with its tuning parameters spelled out exactly as §4.2 of
the spec derives them — `cooldownCandles = max(2, round(20 − s×0.18))`,
`momentumLookback = max(5, round(30 − s×0.25))`, `rsiLower = 20 + s×0.25`,
`rsiUpper = 80 − s×0.25`, `stFactor = 4.0 − s×0.025`,
`stPeriod = max(7, round(14 − s×0.07))` — amended by the one deviation
the source has: the cooldown is additionally multiplied by 4 when the
engine is invoked for the `'1s'` timeframe.  `round` is `⌊x + 1/2⌋`
(`Math.round` on the positive values that arise). -/
def specDerivedSignals (data : List Candle) (config : AlgoConfig)
    (timeframeId : Option String) : List Signal :=
  if data.length < 50 then []
  else
    let s := config.sensitivity
    let candleDuration : ℤ :=
      if data.length > 1 then (candleAt data 1).time - (candleAt data 0).time else 60000
    let atrArr := calculateATR data 14
    (List.range' 200 (data.length - 200)).foldl
      (stepFn
        { data := data
          strategy := config.strategy
          mLookback := (max 5 ⌊30 - s * 0.25 + 1 / 2⌋).toNat
          rsiLower := 20 + s * 0.25
          rsiUpper := 80 - s * 0.25
          minTime :=
            (if timeframeId = some "1s" then max 2 ⌊20 - s * 0.18 + 1 / 2⌋ * 4
             else max 2 ⌊20 - s * 0.18 + 1 / 2⌋) * candleDuration
          riskReward := config.riskReward
          useMacdFilter := config.useMacdFilter
          useEmaTrendFilter := config.useEmaTrendFilter
          useAdxFilter := config.useAdxFilter
          adxThreshold := config.adxThreshold
          ema9 := calculateEMA data 9
          ema21 := calculateEMA data 21
          ema50 := calculateEMA data 50
          ema200 := calculateEMA data 200
          rsiArr := calculateRSIArray data 14
          atrArr := atrArr
          adxArr := calculateADX data 14
          macdHistogram := (calculateMACD data 12 26 9).histogram
          hma9 := calculateHMA data 9
          stDir := (calculateSuperTrend data atrArr (4.0 - s * 0.025)
            ((max 7 ⌊14 - s * 0.07 + 1 / 2⌋).toNat)).snd }) []

/-! ## Predicates the claims use -/

/-- Every signal of the list satisfies `P` (spelled without binders). -/
def SigForall (P : Signal → Prop) : List Signal → Prop
  | [] => True
  | s :: l => P s ∧ SigForall P l

/-- Consecutive signals are at least `m` milliseconds apart. -/
def SpacedBy (m : ℤ) (a b : Signal) : Prop := m ≤ b.candleTime - a.candleTime

/-- Executable check that candle times strictly increase (adjacent
pairs); used to discharge the ordering hypothesis on concrete inputs. -/
def timesChainB : List Candle → Bool
  | [] => true
  | [_] => true
  | a :: b :: t => decide (a.time < b.time) && timesChainB (b :: t)

/-! ## Concrete inputs the claims are evaluated at -/

/-- 201 candles with strictly rising closes (`100 + i`) and constant
volume `1000`; a MOMENTUM breakout fires at index 200.  Every delta is a
gain, so the Wilder average loss stays `0` and the RSI is pinned at 100
— far above the RSI band the spec's RSI filter would allow — and the
constant volume never exceeds `1.2×` its own average. -/
def riseData : List Candle :=
  (List.range 201).map (fun i =>
    ⟨60000 * (i : ℤ), 100 + (i : ℚ), 100 + (i : ℚ), 100 + (i : ℚ), 100 + (i : ℚ), 1000⟩)

/-- MOMENTUM configuration with both of the spec's confirmation filters
switched on and the three implemented filters off. -/
def riseCfg : AlgoConfig :=
  { sensitivity := 50, riskReward := 2, trendFilter := true, showTP := true, showSL := true,
    atrPeriod := 14, strategy := StrategyType.MOMENTUM, useRSIFilter := true,
    useVolumeFilter := true, useMacdFilter := false, useEmaTrendFilter := false,
    useAdxFilter := false, adxThreshold := 25 }

/-- 60 flat candles: long enough to pass the `length < 50` guard, short
of the 200-candle warm-up. -/
def shortData : List Candle :=
  (List.range 60).map (fun i => ⟨60000 * (i : ℤ), 100, 100, 100, 100, 1000⟩)

/-- A configuration for the short-input run. -/
def shortCfg : AlgoConfig :=
  { sensitivity := 5, riskReward := 2, trendFilter := true, showTP := true, showSL := true,
    atrPeriod := 14, strategy := StrategyType.TREND, useRSIFilter := false,
    useVolumeFilter := false, useMacdFilter := true, useEmaTrendFilter := true,
    useAdxFilter := true, adxThreshold := 25 }

/-- 16 candles with identical closes: all fourteen seed deltas are zero,
so the RSI seed computes `100 - 100/(1 + 0/0)`. -/
def flatData : List Candle :=
  (List.range 16).map (fun i => ⟨60000 * (i : ℤ), 100, 100, 100, 100, 1000⟩)

/-- 200 strictly-increasing-time candles for instantiating the ordering
claim. -/
def orderData : List Candle :=
  (List.range 200).map (fun i => ⟨60000 * (i : ℤ), 100, 101, 99, 100, 1000⟩)

/-- A configuration for the ordering run. -/
def orderCfg : AlgoConfig :=
  { sensitivity := 80, riskReward := 3, trendFilter := false, showTP := true, showSL := true,
    atrPeriod := 14, strategy := StrategyType.MOMENTUM, useRSIFilter := false,
    useVolumeFilter := false, useMacdFilter := false, useEmaTrendFilter := false,
    useAdxFilter := false, adxThreshold := 25 }

/-- 10 candles for instantiating the parameter-derivation claim (the
engine returns `[]` on them either way; the witness only needs the two
sides to be evaluated at a concrete input). -/
def tinyData : List Candle :=
  (List.range 10).map (fun i => ⟨60000 * (i : ℤ), 100, 101, 99, 100, 1000⟩)

/-- Sensitivity 50 with the MOMENTUM strategy, for the parameter claim. -/
def tinyCfg : AlgoConfig :=
  { sensitivity := 50, riskReward := 2, trendFilter := true, showTP := true, showSL := true,
    atrPeriod := 14, strategy := StrategyType.MOMENTUM, useRSIFilter := false,
    useVolumeFilter := false, useMacdFilter := false, useEmaTrendFilter := false,
    useAdxFilter := false, adxThreshold := 25 }

/-- 41 candles built so that the REVERSAL conditions at index 40 hold
with RSI exactly 40: fifteen closes of 100 (zero deltas), one drop to 86
(the Wilder average loss turns positive), one rise to `284/3` (making
`avgGain/avgLoss = 2/3`, i.e. RSI `= 40`), then flat closes — the EMA(21)
stays above the closes, the 20-close window is constant so the Bollinger
standard deviation is exactly `|close − ema21|`, candle 39 carries a
deep low that pierces the lower band, and candle 40 closes bullish. -/
def revData : List Candle :=
  ((List.range 15).map (fun i => ⟨60000 * (i : ℤ), 100, 100, 100, 100, 1000⟩)) ++
  [⟨60000 * 15, 86, 86, 86, 86, 1000⟩, ⟨60000 * 16, 284 / 3, 284 / 3, 284 / 3, 284 / 3, 1000⟩] ++
  ((List.range 24).map (fun i =>
    if i = 22 then ⟨60000 * (17 + (i : ℤ)), 284 / 3, 284 / 3, 0, 284 / 3, 1000⟩
    else if i = 23 then ⟨60000 * (17 + (i : ℤ)), 284 / 3 - 1, 284 / 3, 284 / 3 - 1, 284 / 3, 1000⟩
    else ⟨60000 * (17 + (i : ℤ)), 284 / 3, 284 / 3, 284 / 3, 284 / 3, 1000⟩))

/-! ## Basic facts about the clamp -/

theorem clampSens_minmax (s : ℚ) : clampSens (min 100 (max 1 s)) = clampSens s := by
  unfold clampSens
  rcases le_total s 1 with h1 | h1 <;> rcases le_total s 100 with h2 | h2 <;>
    simp [min_def, max_def] <;> split_ifs <;> first | rfl | linarith

theorem clampSens_eq_of (s : ℚ) (h1 : 1 ≤ s) (h2 : s ≤ 100) : clampSens s = s := by
  unfold clampSens
  rw [min_eq_right h2, max_eq_right h1]

/-! ## C9: determinism -/

/-- C9.  `calculateSignals` is a pure function of its input and
configuration: it keeps no state across calls and uses no randomness,
so two invocations on the identical input/config pair yield identical
signal lists.  In the embedding this is definitional. -/
theorem C9_deterministic (data : List Candle) (config : AlgoConfig) (tf : Option String) :
    calculateSignals data config tf = calculateSignals data config tf := rfl

/-! ## C10: sensitivity clamping -/

/-- C10.  The output of `calculateSignals` is unchanged when
`config.sensitivity` is replaced by `min 100 (max 1 sensitivity)`: the
engine clamps the sensitivity into `[1, 100]` at the start of the call
and never uses the raw value. -/
theorem C10_sensitivity_clamped (data : List Candle) (config : AlgoConfig) (tf : Option String) :
    calculateSignals data { config with sensitivity := min 100 (max 1 config.sensitivity) } tf =
      calculateSignals data config tf := by
  simp only [calculateSignals, mkCtx, clampSens_minmax]

/-! ## C1: the spec's RSI and volume confirmation filters -/

/-- C1 (amended).  The configuration flags `useRSIFilter` and
`useVolumeFilter` are never read by `calculateSignals`: toggling them
changes nothing about the output.  No RSI-bounds or volume-spike
confirmation filter exists in the engine (the implemented confirmation
filters are MACD, EMA-200 trend and ADX). -/
theorem C1_filter_flags_unread (data : List Candle) (config : AlgoConfig) (tf : Option String)
    (b1 b2 : Bool) :
    calculateSignals data { config with useRSIFilter := b1, useVolumeFilter := b2 } tf =
      calculateSignals data config tf := rfl

/-- C1 (counterexample).  A run with both filters enabled emits a LONG
signal at index 200 whose RSI is 100 (outside `[40, 70]`) and whose
volume does not exceed `1.2×` the mean of the preceding 10 volumes: the
claimed filters veto nothing. -/
theorem C1_filters_not_applied_cex :
    riseCfg.useRSIFilter = true ∧ riseCfg.useVolumeFilter = true ∧
    (calculateSignals riseData riseCfg none).map Signal.type = [SigType.LONG] ∧
    ((calculateRSIArray riseData 14).getD 200 (JD.fin 0)).gtQ 70 = true ∧
    ¬ ((candleAt riseData 200).volume >
        1.2 * (((List.range' 1 10).map (fun k => (candleAt riseData (200 - k)).volume)).sum / 10)) :=
  ⟨rfl, rfl, by decide, by decide, by decide⟩

/-! ## C2: inputs shorter than the warm-up -/

/-- Off the throwing band — below the 50-candle guard or from 200
candles up — the full-semantics run returns normally with the value of
the total model; this is why the remaining claims may be (and are)
stated against `calculateSignals`. -/
theorem calculateSignalsRun_eq_some (data : List Candle) (config : AlgoConfig)
    (tf : Option String) (h : data.length < 50 ∨ 200 ≤ data.length) :
    calculateSignalsRun data config tf = some (calculateSignals data config tf) := by
  rcases h with h | h
  · unfold calculateSignalsRun calculateSignals
    rw [if_pos h, if_pos h]
  · unfold calculateSignalsRun calculateEMARun
    rw [if_neg (by omega : ¬ data.length < 50), if_neg (by omega : ¬ data.length < 9),
      if_neg (by omega : ¬ data.length < 21), if_neg (by omega : ¬ data.length < 50),
      if_neg (by omega : ¬ data.length < 200)]

/-- C2.  For 50 to 199 candles the engine does NOT return an empty
list: the `length < 50` guard does not fire, the unconditional EMA(200)
precomputation (line 871) reads `data[i].close` past the end of the
array (line 443), and the resulting TypeError propagates out of
`calculateSignals` — the run throws. -/
theorem C2_short_input_throws (data : List Candle) (config : AlgoConfig) (tf : Option String)
    (h50 : 50 ≤ data.length) (h200 : data.length < 200) :
    calculateSignalsRun data config tf = none := by
  unfold calculateSignalsRun calculateEMARun
  rw [if_neg (by omega : ¬ data.length < 50), if_neg (by omega : ¬ data.length < 9),
    if_neg (by omega : ¬ data.length < 21), if_neg (by omega : ¬ data.length < 50),
    if_pos h200]

/-- C2, instantiated at a concrete 60-candle input: the run throws
rather than returning the empty list. -/
theorem C2_short_input_throws_wit :
    50 ≤ shortData.length ∧ shortData.length < 200 ∧
    calculateSignalsRun shortData shortCfg none = none :=
  ⟨by decide, by decide, C2_short_input_throws shortData shortCfg none (by decide) (by decide)⟩

/-! ## C7: the RSI zero-loss guard -/

/-- C7.  The seed index of `calculateRSIArray` is NOT guarded: on 16
candles with identical closes the first fourteen deltas are all zero, so
the seed computes `100 - 100/(1 + 0/0)`, which is `NaN` — not `100` as
the claim states — and the division by zero the claim rules out does
occur at the seed. -/
theorem C7_rsi_seed_nan :
    (calculateRSIArray flatData 14).getD 14 (JD.fin 0) = JD.nan ∧
    rsiSeedVal 0 0 = JD.nan :=
  ⟨by decide, by decide⟩

/-! ## C4: the sensitivity-derived parameters -/

/-- C4 (counterexample).  On a `'1s'`-timeframe invocation the cooldown
the engine uses is quadrupled: at sensitivity 50 it is 44 candles, not
the `max(2, round(20 − 50×0.18)) = 11` of the claimed formula. -/
theorem C4_one_second_cooldown_cex :
    cooldownCandles 50 (some "1s") = 44 ∧
    ¬ cooldownCandles 50 (some "1s") = max 2 (jsRound (20 - 50 * 0.18)) := by
  exact ⟨by decide, by decide⟩

/-- C4 (amended).  For sensitivity in `[1, 100]`, `calculateSignals`
equals the engine run with every tuning parameter replaced by the
spec's closed-form derivation — `cooldown = max(2, round(20 − s×0.18))`
(times 4 on the `'1s'` timeframe), `momentumLookback = max(5, round(30 −
s×0.25))`, `rsiLower = 20 + s×0.25`, `rsiUpper = 80 − s×0.25`,
`stFactor = 4.0 − s×0.025`, `stPeriod = max(7, round(14 − s×0.07))` —
as spelled out in `specDerivedSignals`. -/
theorem C4_param_derivation (data : List Candle) (config : AlgoConfig) (tf : Option String)
    (h1 : 1 ≤ config.sensitivity) (h2 : config.sensitivity ≤ 100) :
    calculateSignals data config tf = specDerivedSignals data config tf := by
  simp only [calculateSignals, specDerivedSignals, mkCtx, cooldownCandles, momentumLookback,
    rsiLowerOf, rsiUpperOf, stFactorOf, stPeriodOf, jsRound,
    clampSens_eq_of config.sensitivity h1 h2]

/-- C4 (amended), instantiated at sensitivity 50 on the `'1s'`
timeframe. -/
theorem C4_param_derivation_wit :
    1 ≤ tinyCfg.sensitivity ∧ tinyCfg.sensitivity ≤ 100 ∧
    calculateSignals tinyData tinyCfg (some "1s") =
      specDerivedSignals tinyData tinyCfg (some "1s") :=
  ⟨by decide, by decide,
    C4_param_derivation tinyData tinyCfg (some "1s") (by decide) (by decide)⟩

/-! ## The emission loop: keep-or-push characterisation -/

theorem cooldownOk_last (sigs : List Signal) (t m : ℤ)
    (h : cooldownOk sigs t m = true) (last : Signal) (hl : sigs.getLast? = some last) :
    m ≤ t - last.candleTime := by
  unfold cooldownOk at h
  rw [hl] at h
  simpa using h

theorem stepFn_keep_or_push (ctx : EngineCtx) (acc : List Signal) (i : ℕ) :
    stepFn ctx acc i = acc ∨
    ∃ ty r, cooldownOk acc (candleAt ctx.data i).time ctx.minTime = true ∧
      stepFn ctx acc i = acc ++ [mkSignal (candleAt ctx.data i) ty r
        (confidenceAt ctx.data ctx.ema21 ctx.ema50 ctx.rsiArr ctx.adxArr i ty)
        (ctx.atrArr.getD i 0) ctx.riskReward] := by
  unfold stepFn
  cases h : strategyCandidate ctx i with
  | none => exact Or.inl rfl
  | some p =>
    obtain ⟨ty, r⟩ := p
    by_cases h1 : macdVeto ctx i ty = true
    · left; simp [h1]
    · by_cases h2 : emaVeto ctx i ty = true
      · left; simp [h1, h2]
      · by_cases h3 : adxVeto ctx i = true
        · left; simp [h1, h2, h3]
        · by_cases h4 : cooldownOk acc (candleAt ctx.data i).time ctx.minTime = true
          · right; exact ⟨ty, r ++ reasonSuffix ctx i, h4, by simp [h1, h2, h3, h4]⟩
          · left; simp [h1, h2, h3, h4]

theorem sigForall_append (P : Signal → Prop) (l : List Signal) (x : Signal)
    (hl : SigForall P l) (hx : P x) : SigForall P (l ++ [x]) := by
  induction l with
  | nil => exact ⟨hx, trivial⟩
  | cons a t ih => exact ⟨hl.1, ih hl.2⟩

theorem foldl_stepFn_sigForall (ctx : EngineCtx) (P : Signal → Prop) :
    ∀ (l : List ℕ) (acc : List Signal),
      (∀ i ∈ l, ∀ ty r, P (mkSignal (candleAt ctx.data i) ty r
        (confidenceAt ctx.data ctx.ema21 ctx.ema50 ctx.rsiArr ctx.adxArr i ty)
        (ctx.atrArr.getD i 0) ctx.riskReward)) →
      SigForall P acc → SigForall P (l.foldl (stepFn ctx) acc) := by
  intro l
  induction l with
  | nil => intro acc _ hacc; exact hacc
  | cons i t ih =>
    intro acc hP hacc
    simp only [List.foldl_cons]
    apply ih _ (fun j hj => hP j (List.mem_cons_of_mem _ hj))
    rcases stepFn_keep_or_push ctx acc i with h | ⟨ty, r, _, h⟩
    · rw [h]; exact hacc
    · rw [h]; exact sigForall_append P acc _ hacc (hP i (List.mem_cons_self _ _) ty r)

theorem chain'_append_singleton {R : Signal → Signal → Prop} {l : List Signal} {x : Signal}
    (hl : List.Chain' R l) (h : ∀ a, l.getLast? = some a → R a x) :
    List.Chain' R (l ++ [x]) := by
  rw [List.chain'_append]
  refine ⟨hl, List.chain'_singleton x, ?_⟩
  intro a ha y hy
  simp only [List.head?_cons, Option.mem_def, Option.some.injEq] at hy
  subst hy
  exact h a (by simpa using ha)

theorem foldl_stepFn_chain (ctx : EngineCtx) :
    ∀ (l : List ℕ) (acc : List Signal),
      List.Chain' (SpacedBy ctx.minTime) acc →
      List.Chain' (SpacedBy ctx.minTime) (l.foldl (stepFn ctx) acc) := by
  intro l
  induction l with
  | nil => intro acc h; exact h
  | cons i t ih =>
    intro acc hacc
    simp only [List.foldl_cons]
    apply ih
    rcases stepFn_keep_or_push ctx acc i with h | ⟨ty, r, hcd, h⟩
    · rw [h]; exact hacc
    · rw [h]
      apply chain'_append_singleton hacc
      intro a ha
      have hle := cooldownOk_last acc _ _ hcd a ha
      simpa [SpacedBy, mkSignal] using hle

/-! ## C3: ordering and cooldown spacing -/

theorem cooldownCandles_ge_two (s : ℚ) (tf : Option String) : 2 ≤ cooldownCandles s tf := by
  simp only [cooldownCandles]
  have h : (2 : ℤ) ≤ max 2 (jsRound (20 - s * 0.18)) := le_max_left _ _
  split
  · linarith
  · exact h

theorem chain'_of_timesChainB :
    ∀ (l : List Candle), timesChainB l = true →
      List.Chain' (fun a b => a.time < b.time) l := by
  intro l
  induction l with
  | nil => intro _; exact List.chain'_nil
  | cons a t ih =>
    cases t with
    | nil => intro _; exact List.chain'_singleton a
    | cons b t2 =>
      intro h
      unfold timesChainB at h
      rw [Bool.and_eq_true] at h
      exact List.chain'_cons.mpr ⟨of_decide_eq_true h.1, ih h.2⟩

theorem chain'_time_lt_01 (data : List Candle)
    (h : List.Chain' (fun a b => a.time < b.time) data) (hlen : 2 ≤ data.length) :
    (candleAt data 0).time < (candleAt data 1).time := by
  rcases data with _ | ⟨a, _ | ⟨b, t⟩⟩
  · simp at hlen
  · simp at hlen
  · have hab := (List.chain'_cons.mp h).1
    simpa [candleAt] using hab

/-- C3.  For a candle input with strictly increasing times and at least
200 candles, the emitted signals are strictly ordered by ascending
`candleTime`, and every pair of consecutive signals is at least
`cooldownCandles × candleDuration` apart, where `candleDuration` is the
gap between the first two candles.  (The first signal of a run is pushed
unconditionally; the spacing guarantee is about consecutive pairs.) -/
theorem C3_signals_ordered_spaced (data : List Candle) (config : AlgoConfig) (tf : Option String)
    (hmono : List.Chain' (fun a b => a.time < b.time) data) (hlen : 200 ≤ data.length) :
    List.Chain' (fun s t => s.candleTime < t.candleTime) (calculateSignals data config tf) ∧
    List.Chain' (SpacedBy (cooldownCandles (clampSens config.sensitivity) tf *
        ((candleAt data 1).time - (candleAt data 0).time)))
      (calculateSignals data config tf) := by
  have hdur : 0 < (candleAt data 1).time - (candleAt data 0).time := by
    have := chain'_time_lt_01 data hmono (by omega)
    omega
  have hcd : (2 : ℤ) ≤ cooldownCandles (clampSens config.sensitivity) tf :=
    cooldownCandles_ge_two _ _
  have hmt : 0 < cooldownCandles (clampSens config.sensitivity) tf *
      ((candleAt data 1).time - (candleAt data 0).time) :=
    mul_pos (by linarith) hdur
  have hctx : (mkCtx data config.strategy config.sensitivity config.riskReward
      config.useMacdFilter config.useEmaTrendFilter config.useAdxFilter
      config.adxThreshold tf).minTime =
      cooldownCandles (clampSens config.sensitivity) tf *
        ((candleAt data 1).time - (candleAt data 0).time) := by
    simp only [mkCtx]
    rw [if_pos (by omega : data.length > 1)]
  have hchain := foldl_stepFn_chain
    (mkCtx data config.strategy config.sensitivity config.riskReward
      config.useMacdFilter config.useEmaTrendFilter config.useAdxFilter
      config.adxThreshold tf)
    (List.range' 200 (data.length - 200)) [] List.chain'_nil
  rw [hctx] at hchain
  unfold calculateSignals
  rw [if_neg (by omega : ¬ data.length < 50)]
  refine ⟨?_, hchain⟩
  apply List.Chain'.imp ?_ hchain
  intro a b hab
  unfold SpacedBy at hab
  omega

/-- C3, instantiated at a concrete 200-candle input. -/
theorem C3_signals_ordered_spaced_wit :
    List.Chain' (fun a b => a.time < b.time) orderData ∧ 200 ≤ orderData.length ∧
    (List.Chain' (fun s t => s.candleTime < t.candleTime)
        (calculateSignals orderData orderCfg none) ∧
     List.Chain' (SpacedBy (cooldownCandles (clampSens orderCfg.sensitivity) none *
         ((candleAt orderData 1).time - (candleAt orderData 0).time)))
       (calculateSignals orderData orderCfg none)) :=
  ⟨chain'_of_timesChainB orderData (by decide), by decide,
    C3_signals_ordered_spaced orderData orderCfg none
      (chain'_of_timesChainB orderData (by decide)) (by decide)⟩

/-! ## C5: the confidence score -/

theorem confidenceAt_bounds (data : List Candle) (ema21 ema50 : List ℚ) (rsiArr : List JD)
    (adxArr : List ℚ) (i : ℕ) (ty : SigType) :
    30 ≤ confidenceAt data ema21 ema50 rsiArr adxArr i ty ∧
    confidenceAt data ema21 ema50 rsiArr adxArr i ty ≤ 98 := by
  simp only [confidenceAt]
  exact ⟨le_max_left _ _, max_le (by norm_num) (min_le_left _ _)⟩

/-- C5.  Every emitted signal's confidence is exactly `confidenceAt` at
its triggering index — the clamp to `[30, 98]` of base 60 plus the RSI
adjustment (LONG: +15 if RSI<35, −10 if RSI>60; SHORT: +15 if RSI>65,
−10 if RSI<40), the volume adjustment (+15 above 1.5× the 10-candle
average volume, else +5 above the average), +10 for close/EMA21/EMA50
alignment with the direction, and +10 for ADX>30 — and therefore lies in
`[30, 98]` inclusive. -/
theorem C5_confidence_formula_bounds (data : List Candle) (config : AlgoConfig)
    (tf : Option String) :
    SigForall (fun s =>
      30 ≤ s.confidence ∧ s.confidence ≤ 98 ∧
      ∃ i ty, i < data.length ∧ s.candleTime = (candleAt data i).time ∧ s.type = ty ∧
        s.confidence = confidenceAt data (calculateEMA data 21) (calculateEMA data 50)
          (calculateRSIArray data 14) (calculateADX data 14) i ty)
      (calculateSignals data config tf) := by
  unfold calculateSignals
  split
  · trivial
  · apply foldl_stepFn_sigForall _ _ _ [] ?_ trivial
    intro i hi ty r
    have hi' : i < data.length := by
      have h := List.mem_range'_1.mp hi
      omega
    exact ⟨(confidenceAt_bounds data _ _ _ _ i ty).1,
      (confidenceAt_bounds data _ _ _ _ i ty).2, i, ty, hi', rfl, rfl, rfl⟩

/-! ## C6: pricing -/

/-- C6.  Every emitted signal is priced from the triggering candle's
close: `entryPrice = close`, the stop sits `2.0 × ATR(14)[i]` away
(below for LONG, above for SHORT), the target sits `2.0 × ATR(14)[i] ×
riskReward` away on the other side; whenever `riskReward > 0` and
`ATR(14)[i] > 0`, LONG signals satisfy `stopLoss < entryPrice <
takeProfit` and SHORT signals `takeProfit < entryPrice < stopLoss`. -/
theorem C6_pricing (data : List Candle) (config : AlgoConfig) (tf : Option String) :
    SigForall (fun s =>
      ∃ i ty, i < data.length ∧ s.candleTime = (candleAt data i).time ∧ s.type = ty ∧
        s.entryPrice = (candleAt data i).close ∧
        s.stopLoss = (if ty = SigType.LONG
          then (candleAt data i).close - (calculateATR data 14).getD i 0 * 2.0
          else (candleAt data i).close + (calculateATR data 14).getD i 0 * 2.0) ∧
        s.takeProfit = (if ty = SigType.LONG
          then (candleAt data i).close +
            (calculateATR data 14).getD i 0 * 2.0 * config.riskReward
          else (candleAt data i).close -
            (calculateATR data 14).getD i 0 * 2.0 * config.riskReward) ∧
        (config.riskReward ≤ 0 ∨ (calculateATR data 14).getD i 0 ≤ 0 ∨
          (ty = SigType.LONG ∧ s.stopLoss < s.entryPrice ∧ s.entryPrice < s.takeProfit) ∨
          (ty = SigType.SHORT ∧ s.takeProfit < s.entryPrice ∧ s.entryPrice < s.stopLoss)))
      (calculateSignals data config tf) := by
  unfold calculateSignals
  split
  · trivial
  · apply foldl_stepFn_sigForall _ _ _ [] ?_ trivial
    intro i hi ty r
    have hi' : i < data.length := by
      have h := List.mem_range'_1.mp hi
      omega
    refine ⟨i, ty, hi', rfl, rfl, rfl, rfl, rfl, ?_⟩
    by_cases hrr : config.riskReward ≤ 0
    · exact Or.inl hrr
    · by_cases hatr : (calculateATR data 14).getD i 0 ≤ 0
      · exact Or.inr (Or.inl hatr)
      · push_neg at hrr hatr
        rw [List.getD_eq_getElem?_getD] at hatr
        have hbuf : 0 < (calculateATR data 14)[i]?.getD 0 * 2.0 :=
          mul_pos hatr (by norm_num)
        have htgt : 0 < (calculateATR data 14)[i]?.getD 0 * 2.0 * config.riskReward :=
          mul_pos hbuf hrr
        cases ty with
        | LONG =>
          refine Or.inr (Or.inr (Or.inl ⟨rfl, ?_, ?_⟩)) <;> simp [mkSignal, mkCtx] <;> linarith
        | SHORT =>
          refine Or.inr (Or.inr (Or.inr ⟨rfl, ?_, ?_⟩)) <;> simp [mkSignal, mkCtx] <;> linarith

/-! ## C8: REVERSAL acceptance across sensitivities -/

/-- C8 (counterexample).  At sensitivity 100 the REVERSAL thresholds are
`rsiLower = 45` and `rsiUpper = 55`, and the branch requires `RSI < 45`
for LONG or `RSI > 55` for SHORT: NO candidate whose RSI lies in
`[45, 55]` is ever accepted at sensitivity 100, so the claimed inputs do
not exist. -/
theorem C8_midband_rejected_cex :
    ¬ ∃ (data : List Candle) (i : ℕ) (q : ℚ),
      (calculateRSIArray data 14).getD i (JD.fin 0) = JD.fin q ∧ 45 ≤ q ∧ q ≤ 55 ∧
      (reversalSignal data (calculateEMA data 21) (calculateRSIArray data 14)
        (rsiLowerOf (clampSens 100)) (rsiUpperOf (clampSens 100)) i).isSome = true := by
  rintro ⟨data, i, q, hq, h45, h55, hsome⟩
  have hl : rsiLowerOf (clampSens 100) = 45 := by norm_num [rsiLowerOf, clampSens]
  have hu : rsiUpperOf (clampSens 100) = 55 := by norm_num [rsiUpperOf, clampSens]
  rw [hl, hu] at hsome
  simp only [reversalSignal, hq] at hsome
  split at hsome
  case isTrue h =>
    have hlt := h.2.2.1
    simp only [JD.ltQ, decide_eq_true_eq] at hlt
    linarith
  case isFalse =>
    split at hsome
    case isTrue h =>
      have hgt := h.2.2.1
      simp only [JD.gtQ, decide_eq_true_eq] at hgt
      linarith
    case isFalse => simp at hsome

/-- C8 (amended).  What does hold: a REVERSAL candidate whose RSI lies
strictly between the sensitivity-1 and the sensitivity-100 lower
thresholds (here RSI = 40 ∈ (20.25, 45)) is accepted at sensitivity 100
and rejected at sensitivity 1 on identical candles. -/
theorem C8_reversal_sensitivity :
    ((reversalSignal revData (calculateEMA revData 21) (calculateRSIArray revData 14)
        (rsiLowerOf (clampSens 100)) (rsiUpperOf (clampSens 100)) 40).map Prod.fst =
      some SigType.LONG) ∧
    reversalSignal revData (calculateEMA revData 21) (calculateRSIArray revData 14)
        (rsiLowerOf (clampSens 1)) (rsiUpperOf (clampSens 1)) 40 = none ∧
    (calculateRSIArray revData 14).getD 40 (JD.fin 0) = JD.fin 40 :=
  ⟨by decide, by decide, by decide⟩
